import Mathlib

/-!
Verification of the nvidia-gpu-exporter collector core.

Shallow embedding of the Go sources:
* the scrape orchestrator (`execute`, `Collect`, `IsNoDataError`) from the
  collector framework file;
* the stateful GPU process collector (`processCPUPercent`,
  `updateSystemSample`, `pruneCPUSamples`, `resetCPUSamples`, `Update`)
  from the process collector file;
* `hostNameOrDefault` from `internal/collector/metrics.go`;
* the command-label truncation block of `collectProcessInfo`.

Conventions: Go `float64` is modelled as `ℚ` (the code only subtracts,
divides by provably-positive quantities, multiplies and compares, so exact
rational arithmetic is a faithful model of the value flow); Go maps are
modelled as association lists with lookup/insert/delete respecting map
semantics; fallible calls are modelled as `Except`/sum results supplied by
an explicit per-cycle environment.
-/

/-- Association-list lookup, modelling Go `v, ok := m[k]` on the
`map[uint]cpuSample` field. -/
def mapLookup (m : List (Nat × ℚ)) (k : Nat) : Option ℚ :=
  match m with
  | [] => none
  | e :: rest => if e.1 == k then some e.2 else mapLookup rest k

/-- Association-list insert, modelling Go `m[k] = v`: replaces the binding
of `k` if present, otherwise adds one. -/
def mapInsert (m : List (Nat × ℚ)) (k : Nat) (v : ℚ) : List (Nat × ℚ) :=
  match m with
  | [] => [(k, v)]
  | e :: rest => if e.1 == k then (k, v) :: rest else e :: mapInsert rest k v

/-- Embeds the Go struct `systemCPUSample{totalSeconds float64; initialized bool}`;
the Go field `initialized` is named `inited` here. -/
structure systemCPUSample where
  totalSeconds : ℚ
  inited : Bool
deriving DecidableEq, Repr

/-- Embeds the cross-cycle state of Go struct `gpuProcessCollector`:
`cpuSamples map[uint]cpuSample` (each `cpuSample` is a single
`cpuSeconds float64`, stored here directly as the value) and
`systemSample systemCPUSample`. -/
structure gpuProcessCollectorState where
  cpuSamples : List (Nat × ℚ)
  systemSample : systemCPUSample
deriving DecidableEq, Repr

/-- Embeds Go `func (c *gpuProcessCollector) processCPUPercent(pid uint,
procSeconds, systemDelta float64, hasSystemDelta bool, numCPU int) float64`.
Returns the computed percentage together with the updated state (the Go
method mutates `c.cpuSamples`). -/
def processCPUPercent (s : gpuProcessCollectorState) (pid : Nat)
    (procSeconds systemDelta : ℚ) (hasSystemDelta : Bool) (numCPU : Nat) :
    ℚ × gpuProcessCollectorState :=
  let prev := mapLookup s.cpuSamples pid
  let s1 : gpuProcessCollectorState :=
    { s with cpuSamples := mapInsert s.cpuSamples pid procSeconds }
  match prev with
  | none => (0, s1)
  | some prevSeconds =>
    if ¬hasSystemDelta ∨ systemDelta ≤ 0 then (0, s1)
    else if procSeconds ≤ prevSeconds then (0, s1)
    else (((procSeconds - prevSeconds) / systemDelta) * (numCPU : ℚ) * 100, s1)

/-- Embeds Go `func (c *gpuProcessCollector) updateSystemSample(total float64)
(float64, bool)`: returns `(delta, hasDelta, newSystemSample)`. -/
def updateSystemSample (s : systemCPUSample) (total : ℚ) :
    ℚ × Bool × systemCPUSample :=
  if ¬s.inited then (0, false, ⟨total, true⟩)
  else
    let delta : ℚ := if s.totalSeconds ≤ total then total - s.totalSeconds else 0
    let s1 : systemCPUSample := ⟨total, s.inited⟩
    if delta ≤ 0 then (0, false, s1) else (delta, true, s1)

/-- Embeds Go `func (c *gpuProcessCollector) pruneCPUSamples(active []uint)`:
deletes every key of `cpuSamples` that is not in `active` (after the Go
early return on an empty map). -/
def pruneCPUSamples (m : List (Nat × ℚ)) (active : List Nat) : List (Nat × ℚ) :=
  if m.isEmpty then m
  else m.filter (fun e => active.contains e.1)

/-- Embeds Go `func (c *gpuProcessCollector) resetCPUSamples()`: deletes every
key of `cpuSamples` and zeroes `systemSample` (Go zero value is
`{totalSeconds: 0, initialized: false}`). -/
def resetCPUSamples (_s : gpuProcessCollectorState) : gpuProcessCollectorState :=
  { cpuSamples := [], systemSample := ⟨0, false⟩ }

/-- Sentinel threshold of the go-dcgm library: `IsInt64Blank(v)` holds for
the blank field values `DCGM_INT64_BLANK = 0x7ffffffffffffff0` and above
(library code, not part of src; only the threshold matters here). -/
def dcgmInt64Blank : Int := 0x7ffffffffffffff0

/-- Embeds the go-dcgm predicate `dcgm.IsInt64Blank`. -/
def isInt64Blank (v : Int) : Bool := dcgmInt64Blank ≤ v

/-- Embeds Go `func sanitizeBytes(value int64) float64` of the stateful
process collector file. -/
def sanitizeBytes (value : Int) : ℚ :=
  if value ≤ 0 ∨ isInt64Blank value then 0 else (value : ℚ)

/-- Embeds Go `func hostNameOrDefault(logger *slog.Logger) string` from
`internal/collector/metrics.go`: the `os.Hostname()` outcome and the
`NODE_NAME` environment value are explicit inputs. The Go code first
returns "unknown" on a hostname error, and only then consults `NODE_NAME`. -/
def hostNameOrDefault (hostnameResult : Except String String) (nodeName : String) : String :=
  match hostnameResult with
  | .error _ => "unknown"
  | .ok hostname => if nodeName ≠ "" then nodeName else hostname

/-! UTF-8 model for the command-label truncation. A Go string is its byte
sequence; `len(s)` counts bytes, `[]rune(s)` decodes to code points, and
`s[:n]` slices bytes. We represent the decoded command line as a list of
code points and compute its Go byte form with a UTF-8 encoder. -/

/-- UTF-8 encoding of one code point (the standard 1-4 byte encoding used
by Go strings). -/
def utf8EncodeChar (c : Nat) : List Nat :=
  if c < 0x80 then [c]
  else if c < 0x800 then [0xC0 + c / 0x40, 0x80 + c % 0x40]
  else if c < 0x10000 then
    [0xE0 + c / 0x1000, 0x80 + (c / 0x40) % 0x40, 0x80 + c % 0x40]
  else
    [0xF0 + c / 0x40000, 0x80 + (c / 0x1000) % 0x40,
     0x80 + (c / 0x40) % 0x40, 0x80 + c % 0x40]

/-- UTF-8 byte sequence of a code-point list (the Go string's bytes). -/
def utf8Encode (s : List Nat) : List Nat :=
  (s.map utf8EncodeChar).flatten

/-- Whether a byte is a UTF-8 continuation byte (`10xxxxxx`). -/
def isContByte (b : Nat) : Bool := 0x80 ≤ b && b < 0xC0

/-- Whether a byte sequence is a well-formed sequence of complete UTF-8
encoded characters (no character split at the end). -/
def validUTF8 : List Nat → Bool
  | [] => true
  | b :: rest =>
    if b < 0x80 then validUTF8 rest
    else if b < 0xC0 then false
    else if b < 0xE0 then
      match rest with
      | b1 :: r => isContByte b1 && validUTF8 r
      | [] => false
    else if b < 0xF0 then
      match rest with
      | b1 :: b2 :: r => isContByte b1 && isContByte b2 && validUTF8 r
      | _ => false
    else if b < 0xF8 then
      match rest with
      | b1 :: b2 :: b3 :: r => isContByte b1 && isContByte b2 && isContByte b3 && validUTF8 r
      | _ => false
    else false

/-- Embeds Go constant `maxCommandLabelLength = 200`. -/
def maxCommandLabelLength : Nat := 200

/-- Embeds the command-label truncation block of Go `collectProcessInfo`
(the `if limit := maxCommandLabelLength; len(meta.command) > limit` block):
input is the command line as code points, output is the resulting label as
Go string bytes. `len(meta.command) > limit` compares bytes; the rune
branch truncates to `limit` code points; the other branch is the byte
slice `meta.command[:limit]`. -/
def truncateCommandLabel (command : List Nat) : List Nat :=
  let bytes := utf8Encode command
  if maxCommandLabelLength < bytes.length then
    if maxCommandLabelLength < command.length then
      utf8Encode (command.take maxCommandLabelLength)
    else
      bytes.take maxCommandLabelLength
  else bytes

/-! Scrape orchestrator: `execute` and `Collect` from the collector
framework file. A collector's single scrape is abstracted by what the
orchestrator observes: its name, the metrics its `Update` sent on the
channel, its returned error, and the measured duration. -/

/-- Embeds the Go error values a collector `Update` can return:
`ErrNoData` or any other error. -/
inductive GoError where
  | noData
  | other (msg : String)
deriving DecidableEq, Repr

/-- Embeds Go `func IsNoDataError(err error) bool` (`err == ErrNoData`). -/
def IsNoDataError (e : GoError) : Bool :=
  match e with
  | .noData => true
  | .other _ => false

/-- Items sent on the metrics channel during one scrape: a collector's own
series (descriptor name, value, label values), or one of the two
meta-gauges that only `execute` emits (`scrapeDurationDesc`,
`scrapeSuccessDesc`). -/
inductive ChanMetric where
  | payload (desc : String) (value : ℚ) (labels : List String)
  | scrapeDuration (collectorName : String) (seconds : ℚ)
  | scrapeSuccess (collectorName : String) (value : ℚ)
deriving DecidableEq, Repr

/-- One collector's behaviour during one scrape, as observed by `execute`. -/
structure CollectorRun where
  name : String
  updateMetrics : List (String × ℚ × List String)
  updateErr : Option GoError
  durationSeconds : ℚ
deriving DecidableEq, Repr

/-- Success gauge value computed by Go `execute`: the `IsNoDataError`
branch only changes the log level, both error branches set `success = 0`;
a nil error sets `success = 1`. -/
def executeSuccess (err : Option GoError) : ℚ :=
  match err with
  | some e => if IsNoDataError e then 0 else 0
  | none => 1

/-- Embeds Go `func execute(name string, c Collector, ch chan<- ...)`:
the metrics `Update` sent on the shared channel, followed by the duration
gauge and the success gauge. -/
def execute (c : CollectorRun) : List ChanMetric :=
  (c.updateMetrics.map (fun m => ChanMetric.payload m.1 m.2.1 m.2.2))
    ++ [ChanMetric.scrapeDuration c.name c.durationSeconds,
        ChanMetric.scrapeSuccess c.name (executeSuccess c.updateErr)]

/-- Embeds Go `func (n NvidiaGPUCollector) Collect(ch chan<- ...)`: one
goroutine per collector runs `execute` against the shared channel and
`Collect` waits for all of them. Interleaving between collectors is
unspecified; we fix the interleaving in which each collector's emissions
are contiguous — every property proved about it (counts, membership,
per-collector sublists) is insensitive to the interleaving. -/
def Collect (collectors : List CollectorRun) : List ChanMetric :=
  (collectors.map execute).flatten

/-- Whether a channel item is the duration meta-gauge of the named collector. -/
def isDurationFor (name : String) : ChanMetric → Bool
  | .scrapeDuration n _ => n == name
  | _ => false

/-- Whether a channel item is the success meta-gauge of the named collector. -/
def isSuccessFor (name : String) : ChanMetric → Bool
  | .scrapeSuccess n _ => n == name
  | _ => false

/-! The stateful process collector's `Update`, over an explicit per-cycle
environment standing for the NVML/DCGM/host-OS calls. -/

/-- Embeds one `dcgm.ProcessInfo` entry as used by `Update`: `Name`,
`GPU`, `PID`, `Memory.GlobalUsed`. -/
structure DcgmProcessInfo where
  procName : String
  gpu : Nat
  pid : Nat
  memoryGlobalUsed : Int
deriving DecidableEq, Repr

/-- Embeds Go struct `processMetadata`. -/
structure processMetadata where
  name : String
  uid : String
  command : String
deriving DecidableEq, Repr

/-- Outcome of Go `nvmlProcessPIDs`: a sorted pid list, an error wrapping
`errGPUProcessInfoUnavailable` (produced by `wrapNVMLAvailabilityError`
for ERROR_UNINITIALIZED / LIBRARY_NOT_FOUND / DRIVER_NOT_LOADED /
NOT_SUPPORTED / NO_PERMISSION / UNKNOWN), or any other error. -/
inductive PidsResult where
  | ok (pids : List Nat)
  | unavailable (msg : String)
  | failure (msg : String)
deriving DecidableEq, Repr

/-- Per-cycle environment of `Update`: the results every external call
would return during this cycle. `procInfos` stands for
`dcgm.GetProcessInfo(group, pid)` (any error makes `Update` skip the pid:
`shouldIgnoreProcessError` and the logged default branch both `continue`);
`hostProcInfo pid fallbackName` stands for
`collectProcessInfo(pid, infos[0].Name)` returning
`(metadata, memPercent, cpuSeconds)`. -/
structure ProcCycleEnv where
  pidsResult : PidsResult
  totalCPUSeconds : Except String ℚ
  dcgmInitResult : Except String Unit
  watchPidFieldsResult : Except String Unit
  procInfos : Nat → Except String (List DcgmProcessInfo)
  hostProcInfo : Nat → String → Except String (processMetadata × ℚ × ℚ)
  numCPU : Nat
  hostname : String

/-- Kind of per-process series the process collector emits
(`processGPUMem`, `processCPU`, `processMem` descriptors). -/
inductive ProcMetricKind where
  | processGPUMem
  | processCPU
  | processMem
deriving DecidableEq, Repr

/-- One per-process series emitted during a cycle, with the label values
`hostname, gpu_id, pid, process_name, uid, command` of the source. -/
structure ProcMetric where
  kind : ProcMetricKind
  value : ℚ
  labels : List String
deriving DecidableEq, Repr

/-- The three series Go `Update` emits for one `dcgm.ProcessInfo` entry
inside the `for _, info := range infos` loop. -/
def emitForInfo (hostname : String) (meta : processMetadata)
    (cpuPercent memPercent : ℚ) (info : DcgmProcessInfo) : List ProcMetric :=
  let labels := [hostname, Nat.repr info.gpu, Nat.repr info.pid,
                 meta.name, meta.uid, meta.command]
  [⟨.processGPUMem, sanitizeBytes info.memoryGlobalUsed, labels⟩,
   ⟨.processCPU, cpuPercent, labels⟩,
   ⟨.processMem, memPercent, labels⟩]

/-- One iteration of the `for _, pid := range pids` loop of Go `Update`:
skips the pid on a `GetProcessInfo` error, an empty info list, or a
`collectProcessInfo` error; otherwise computes the CPU percentage (with
the caller's negative clamps) and emits the three series per info entry. -/
def processOnePid (env : ProcCycleEnv) (systemDelta : ℚ) (hasSystemDelta : Bool)
    (acc : gpuProcessCollectorState × List ProcMetric) (pid : Nat) :
    gpuProcessCollectorState × List ProcMetric :=
  match env.procInfos pid with
  | .error _ => acc
  | .ok [] => acc
  | .ok (info0 :: restInfos) =>
    match env.hostProcInfo pid info0.procName with
    | .error _ => acc
    | .ok (meta, memPercent, procCPUSeconds) =>
      let r := processCPUPercent acc.1 pid procCPUSeconds systemDelta hasSystemDelta env.numCPU
      let cpuPercent := if r.1 < 0 then 0 else r.1
      let memP := if memPercent < 0 then 0 else memPercent
      let ms := ((info0 :: restInfos).map (emitForInfo env.hostname meta cpuPercent memP)).flatten
      (r.2, acc.2 ++ ms)

/-- Result of one `Update` call: the collector state afterwards, the
per-process series sent on the channel, and the returned error
(`none` is Go `nil`). -/
structure UpdateResult where
  state : gpuProcessCollectorState
  metrics : List ProcMetric
  err : Option String
deriving DecidableEq, Repr

/-- Embeds Go `func (c *gpuProcessCollector) Update(ch chan<- ...) error`
of the stateful process collector, with the external calls drawn from
`env`. Mirrors the source's control flow: unavailability of the pid
listing returns nil untouched; an empty pid list resets the cross-cycle
state; then the system CPU sample is updated before DCGM setup, the pid
loop runs, and the sample map is pruned against this cycle's pid list. -/
def updateCycle (env : ProcCycleEnv) (s : gpuProcessCollectorState) : UpdateResult :=
  match env.pidsResult with
  | .unavailable _ => ⟨s, [], none⟩
  | .failure msg => ⟨s, [], some ("list gpu processes: " ++ msg)⟩
  | .ok pids =>
    if pids.isEmpty then ⟨resetCPUSamples s, [], none⟩
    else
      match env.totalCPUSeconds with
      | .error msg => ⟨s, [], some ("read system cpu seconds: " ++ msg)⟩
      | .ok totalSeconds =>
        let sys := updateSystemSample s.systemSample totalSeconds
        let s1 : gpuProcessCollectorState := { s with systemSample := sys.2.2 }
        match env.dcgmInitResult with
        | .error msg => ⟨s1, [], some ("init dcgm: " ++ msg)⟩
        | .ok _ =>
          match env.watchPidFieldsResult with
          | .error msg => ⟨s1, [], some ("watch pid fields: " ++ msg)⟩
          | .ok _ =>
            let out := pids.foldl (processOnePid env sys.1 sys.2.1) (s1, [])
            ⟨{ out.1 with cpuSamples := pruneCPUSamples out.1.cpuSamples pids }, out.2, none⟩

/-- Error the scrape orchestrator sees from the process collector's
`Update` (the collector never returns `ErrNoData`, only wrapped errors). -/
def processCollectorErr (r : UpdateResult) : Option GoError :=
  r.err.map GoError.other

/-- Success gauge value the scrape reports for the process collector after
one `Update`, through `execute`. -/
def processCollectorSuccess (r : UpdateResult) : ℚ :=
  executeSuccess (processCollectorErr r)

/-- CPU-seconds value `Update` would store for a pid this cycle, when the
pid's `GetProcessInfo` and `collectProcessInfo` lookups both succeed. -/
def envCpuSeconds (env : ProcCycleEnv) (pid : Nat) : Option ℚ :=
  match env.procInfos pid with
  | .ok (info0 :: _) =>
    match env.hostProcInfo pid info0.procName with
    | .ok r => some r.2.2
    | .error _ => none
  | _ => none

/-! Helper lemmas about the association-list map operations. -/

theorem mapLookup_insert_self (m : List (Nat × ℚ)) (k : Nat) (v : ℚ) :
    mapLookup (mapInsert m k v) k = some v := by
  induction m with
  | nil => simp [mapInsert, mapLookup]
  | cons e rest ih =>
    by_cases h : e.1 = k
    · simp [mapInsert, mapLookup, beq_iff_eq, h]
    · simp [mapInsert, mapLookup, beq_iff_eq, h, ih]

theorem mapLookup_insert_ne (m : List (Nat × ℚ)) (k q : Nat) (v : ℚ) (h : q ≠ k) :
    mapLookup (mapInsert m k v) q = mapLookup m q := by
  have h' : ¬(k = q) := fun hh => h hh.symm
  induction m with
  | nil => simp [mapInsert, mapLookup, beq_iff_eq, h']
  | cons e rest ih =>
    by_cases he : e.1 = k
    · simp [mapInsert, mapLookup, beq_iff_eq, he, h']
    · simp [mapInsert, mapLookup, beq_iff_eq, he, ih]

theorem mapLookup_insert_isSome (m : List (Nat × ℚ)) (k q : Nat) (v : ℚ)
    (h : (mapLookup m q).isSome) :
    (mapLookup (mapInsert m k v) q).isSome := by
  by_cases hq : q = k
  · subst hq; simp [mapLookup_insert_self]
  · rwa [mapLookup_insert_ne m k q v hq]

theorem mapLookup_filter_isSome (m : List (Nat × ℚ)) (active : List Nat) (q : Nat)
    (h : (mapLookup (m.filter fun e => active.contains e.1) q).isSome) :
    q ∈ active := by
  induction m with
  | nil => simp [mapLookup] at h
  | cons e rest ih =>
    by_cases hc : active.contains e.1 = true
    · simp only [List.filter_cons, hc, if_true] at h
      by_cases hq : e.1 = q
      · subst hq; simpa using hc
      · rw [mapLookup, if_neg (by simpa [beq_iff_eq] using hq)] at h
        exact ih h
    · have hc' : active.contains e.1 = false := by simpa using hc
      simp only [List.filter_cons, hc', Bool.false_eq_true, if_false] at h
      exact ih h

theorem mapLookup_filter_mem (m : List (Nat × ℚ)) (active : List Nat) (q : Nat)
    (h : q ∈ active) :
    mapLookup (m.filter fun e => active.contains e.1) q = mapLookup m q := by
  induction m with
  | nil => rfl
  | cons e rest ih =>
    by_cases hq : e.1 = q
    · have hc : active.contains e.1 = true := by
        subst hq; simpa using h
      simp only [List.filter_cons, hc, if_true]
      rw [mapLookup, mapLookup,
          if_pos (by simpa [beq_iff_eq] using hq), if_pos (by simpa [beq_iff_eq] using hq)]
    · by_cases hc : active.contains e.1 = true
      · simp only [List.filter_cons, hc, if_true]
        rw [mapLookup, mapLookup,
            if_neg (by simpa [beq_iff_eq] using hq), if_neg (by simpa [beq_iff_eq] using hq)]
        exact ih
      · have hc' : active.contains e.1 = false := by simpa using hc
        simp only [List.filter_cons, hc', Bool.false_eq_true, if_false]
        rw [mapLookup, if_neg (by simpa [beq_iff_eq] using hq)]
        exact ih

theorem mapLookup_prune_isSome (m : List (Nat × ℚ)) (active : List Nat) (q : Nat)
    (h : (mapLookup (pruneCPUSamples m active) q).isSome) : q ∈ active := by
  unfold pruneCPUSamples at h
  split at h
  · next he =>
    rw [List.isEmpty_iff.mp he] at h
    simp [mapLookup] at h
  · exact mapLookup_filter_isSome m active q h

theorem mapLookup_prune_mem (m : List (Nat × ℚ)) (active : List Nat) (q : Nat)
    (h : q ∈ active) :
    mapLookup (pruneCPUSamples m active) q = mapLookup m q := by
  unfold pruneCPUSamples
  split
  · rfl
  · exact mapLookup_filter_mem m active q h

theorem processCPUPercent_snd (s : gpuProcessCollectorState) (pid : Nat)
    (procSeconds systemDelta : ℚ) (hasSystemDelta : Bool) (numCPU : Nat) :
    (processCPUPercent s pid procSeconds systemDelta hasSystemDelta numCPU).2
      = { s with cpuSamples := mapInsert s.cpuSamples pid procSeconds } := by
  unfold processCPUPercent
  cases mapLookup s.cpuSamples pid with
  | none => rfl
  | some prev => simp only []; split_ifs <;> rfl

/-- C2: for every pid processed in a cycle, `processCPUPercent` stores the
current cumulative CPU-seconds for the pid unconditionally, never returns a
negative value, returns 0 when no prior sample exists or the system delta
is invalid (absent or non-positive) or the per-process delta is non-positive,
and otherwise returns `(processDelta / systemDelta) * numCPU * 100`. -/
theorem processCPUPercent_spec (s : gpuProcessCollectorState) (pid : Nat)
    (procSeconds systemDelta : ℚ) (hasSystemDelta : Bool) (numCPU : Nat) :
    mapLookup (processCPUPercent s pid procSeconds systemDelta hasSystemDelta numCPU).2.cpuSamples pid
      = some procSeconds ∧
    0 ≤ (processCPUPercent s pid procSeconds systemDelta hasSystemDelta numCPU).1 ∧
    ((mapLookup s.cpuSamples pid = none ∨ hasSystemDelta = false ∨ systemDelta ≤ 0 ∨
        (∃ prev, mapLookup s.cpuSamples pid = some prev ∧ procSeconds ≤ prev)) →
      (processCPUPercent s pid procSeconds systemDelta hasSystemDelta numCPU).1 = 0) ∧
    (∀ prev, mapLookup s.cpuSamples pid = some prev → hasSystemDelta = true →
      0 < systemDelta → prev < procSeconds →
      (processCPUPercent s pid procSeconds systemDelta hasSystemDelta numCPU).1
        = ((procSeconds - prev) / systemDelta) * (numCPU : ℚ) * 100) := by
  have hsnd := processCPUPercent_snd s pid procSeconds systemDelta hasSystemDelta numCPU
  refine ⟨by rw [hsnd]; exact mapLookup_insert_self _ _ _, ?_, ?_, ?_⟩
  · unfold processCPUPercent
    cases hp : mapLookup s.cpuSamples pid with
    | none => simp
    | some prev =>
      simp only []
      split_ifs with h1 h2
      · simp
      · simp
      · push_neg at h1 h2
        have hsd : 0 < systemDelta := h1.2
        have hps : 0 < procSeconds - prev := by linarith [h2]
        have : 0 ≤ (procSeconds - prev) / systemDelta := le_of_lt (div_pos hps hsd)
        have : 0 ≤ (procSeconds - prev) / systemDelta * (numCPU : ℚ) :=
          mul_nonneg this (Nat.cast_nonneg numCPU)
        nlinarith
  · intro hcase
    unfold processCPUPercent
    cases hp : mapLookup s.cpuSamples pid with
    | none => simp
    | some prev =>
      simp only []
      split_ifs with h1 h2
      · rfl
      · rfl
      · exfalso
        push_neg at h1 h2
        rcases hcase with hnone | hfalse | hle | ⟨prev', hprev', hle'⟩
        · rw [hp] at hnone; cases hnone
        · rw [hfalse] at h1; exact absurd h1.1 (by simp)
        · exact absurd hle (not_le.mpr h1.2)
        · rw [hp] at hprev'
          cases hprev'
          exact absurd hle' (not_le.mpr h2)
  · intro prev hp htrue hpos hlt
    unfold processCPUPercent
    rw [hp]
    simp only []
    rw [if_neg (by simp [htrue]; linarith), if_neg (not_le.mpr hlt)]

/-- Concrete state for the C2 witness: prior sample for pid 42 is 2 CPU-seconds. -/
def sampleStateC2 : gpuProcessCollectorState := ⟨[(42, 2)], ⟨100, true⟩⟩

/-- Witness for C2 at the spec's worked scenario: process delta 1.0, system
delta 10.0, 8 logical cores, expected 80 percent, and the sample map now
holds 3.0 for pid 42. -/
theorem processCPUPercent_spec_witness :
    mapLookup (processCPUPercent sampleStateC2 42 3 10 true 8).2.cpuSamples 42 = some 3 ∧
    (processCPUPercent sampleStateC2 42 3 10 true 8).1 = 80 := by
  have h := processCPUPercent_spec sampleStateC2 42 3 10 true 8
  refine ⟨h.1, ?_⟩
  have hf := h.2.2.2 2 (by decide) rfl (by norm_num) (by norm_num)
  rw [hf]
  norm_num

/-- C6: `updateSystemSample` always stores the current reading as the new
system sample (marking it present), returns `max(0, current - previous)`
as the delta (0 on the first, not-yet-stored call), never a negative one,
and marks the delta valid exactly when a previous sample existed and the
delta is strictly positive. -/
theorem updateSystemSample_spec (s : systemCPUSample) (total : ℚ) :
    (updateSystemSample s total).2.2.totalSeconds = total ∧
    (updateSystemSample s total).2.2.inited = true ∧
    0 ≤ (updateSystemSample s total).1 ∧
    (updateSystemSample s total).1
      = (if s.inited = true ∧ s.totalSeconds ≤ total then total - s.totalSeconds else 0) ∧
    ((updateSystemSample s total).2.1 = true ↔
      (s.inited = true ∧ 0 < (updateSystemSample s total).1)) := by
  obtain ⟨ts, ib⟩ := s
  cases ib with
  | false => simp [updateSystemSample]
  | true =>
    by_cases hle : ts ≤ total
    · by_cases hz : total - ts ≤ 0
      · have hts : ts = total := by linarith
        simp [updateSystemSample, hle, hz, hts]
      · simp [updateSystemSample, hle, hz]
        all_goals linarith
    · simp [updateSystemSample, hle]

/-- Witness for C6: previous system sample 100 seconds, current 110: delta
10, valid, and the stored sample becomes 110. -/
theorem updateSystemSample_spec_witness :
    (updateSystemSample ⟨100, true⟩ 110).1 = 10 ∧
    (updateSystemSample ⟨100, true⟩ 110).2.1 = true ∧
    (updateSystemSample ⟨100, true⟩ 110).2.2 = ⟨110, true⟩ := by
  have h := updateSystemSample_spec ⟨100, true⟩ 110
  refine ⟨?_, ?_, ?_⟩
  · rw [h.2.2.2.1]; norm_num
  · exact h.2.2.2.2.mpr ⟨rfl, by rw [h.2.2.2.1]; norm_num⟩
  · have h1 := h.1
    have h2 := h.2.1
    cases heq : (updateSystemSample ⟨100, true⟩ 110).2.2 with
    | mk t i =>
      rw [heq] at h1 h2
      simp at h1 h2
      rw [h1, h2]

/-- C8 counterexample: with the hostname lookup failing and `NODE_NAME`
set to "node-a", the code returns "unknown", not the override, refuting
the claimed resolution order. -/
theorem hostNameOrDefault_error_ignores_nodeName :
    hostNameOrDefault (Except.error "hostname lookup failed") "node-a" = "unknown" ∧
    hostNameOrDefault (Except.error "hostname lookup failed") "node-a" ≠ "node-a" := by
  exact ⟨rfl, by decide⟩

/-- C8 amended: when the OS hostname lookup fails the host identifier is
the "unknown" sentinel regardless of `NODE_NAME`; when it succeeds, the
identifier is `NODE_NAME` if non-empty, else the hostname. -/
theorem hostNameOrDefault_order (e h nodeName : String) :
    hostNameOrDefault (Except.error e) nodeName = "unknown" ∧
    hostNameOrDefault (Except.ok h) nodeName = (if nodeName = "" then h else nodeName) := by
  refine ⟨rfl, ?_⟩
  by_cases hn : nodeName = "" <;> simp [hostNameOrDefault, hn]

/-- Concrete command line for C7: 67 repetitions of U+3042, i.e. 67 code
points but 201 UTF-8 bytes. -/
def commandC7 : List Nat := List.replicate 67 0x3042

set_option maxRecDepth 40000 in
/-- C7: the truncation block of `collectProcessInfo` is entered on byte
length, and when the byte length exceeds 200 while the code-point count
does not, it byte-slices the label: at `commandC7` the emitted label is the
first 200 bytes, which changes a command line of only 67 code points and
splits the final character's multi-byte encoding — refuting the claimed
unconditional code-point-safe behaviour. -/
theorem truncate_command_splits_multibyte :
    commandC7.length ≤ maxCommandLabelLength ∧
    (utf8Encode commandC7).length = 201 ∧
    truncateCommandLabel commandC7 = (utf8Encode commandC7).take 200 ∧
    truncateCommandLabel commandC7 ≠ utf8Encode commandC7 ∧
    validUTF8 (utf8Encode commandC7) = true ∧
    validUTF8 (truncateCommandLabel commandC7) = false := by decide

/-- Concrete unavailability environment for C10. -/
def envC10 : ProcCycleEnv where
  pidsResult := PidsResult.unavailable "nvml init: gpu process list unavailable (ERROR_LIBRARY_NOT_FOUND)"
  totalCPUSeconds := Except.ok 0
  dcgmInitResult := Except.ok ()
  watchPidFieldsResult := Except.ok ()
  procInfos := fun _ => Except.ok []
  hostProcInfo := fun _ _ => Except.error "unused"
  numCPU := 8
  hostname := "node-0"

/-- C10: when the pid listing fails with the distinguished unavailability
error, `Update` returns nil and the whole result carries the state exactly
as it was: the per-pid sample map and the system CPU sample are untouched,
so baselines recorded before an unavailability gap persist across it. -/
theorem update_unavailable_frame (env : ProcCycleEnv) (s : gpuProcessCollectorState)
    (msg : String) (h : env.pidsResult = PidsResult.unavailable msg) :
    updateCycle env s = ⟨s, [], none⟩ := by
  unfold updateCycle
  rw [h]

/-- Witness for C10: a state holding a baseline for pid 42 survives an
unavailability cycle unchanged. -/
theorem update_unavailable_frame_witness :
    envC10.pidsResult = PidsResult.unavailable "nvml init: gpu process list unavailable (ERROR_LIBRARY_NOT_FOUND)" ∧
    updateCycle envC10 ⟨[(42, 5)], ⟨100, true⟩⟩ = ⟨⟨[(42, 5)], ⟨100, true⟩⟩, [], none⟩ :=
  ⟨rfl, update_unavailable_frame envC10 _ _ rfl⟩

/-- Concrete unavailability environment for C1. -/
def envC1 : ProcCycleEnv where
  pidsResult := PidsResult.unavailable "nvml device count: gpu process list unavailable (ERROR_NOT_SUPPORTED)"
  totalCPUSeconds := Except.ok 0
  dcgmInitResult := Except.ok ()
  watchPidFieldsResult := Except.ok ()
  procInfos := fun _ => Except.ok []
  hostProcInfo := fun _ _ => Except.error "unused"
  numCPU := 8
  hostname := "node-0"

/-- C1 counterexample: on an unavailable pid listing `Update` emits no
series and returns nil, so `execute` computes success = 1 for the
collector — the claimed success = 0 does not hold. -/
theorem update_unavailable_success_is_one :
    (updateCycle envC1 ⟨[], ⟨0, false⟩⟩).metrics = [] ∧
    (updateCycle envC1 ⟨[], ⟨0, false⟩⟩).err = none ∧
    processCollectorSuccess (updateCycle envC1 ⟨[], ⟨0, false⟩⟩) = 1 ∧
    processCollectorSuccess (updateCycle envC1 ⟨[], ⟨0, false⟩⟩) ≠ 0 := by decide

/-- C1 amended: when enumeration reports the capability unavailable, the
process collector's `Update` emits no per-process series and surfaces no
error, and the scrape reports success = 1 for the collector (a clean
no-data cycle), not success = 0. -/
theorem update_unavailable_clean_cycle (env : ProcCycleEnv) (s : gpuProcessCollectorState)
    (msg : String) (h : env.pidsResult = PidsResult.unavailable msg) :
    (updateCycle env s).metrics = [] ∧ (updateCycle env s).err = none ∧
    processCollectorSuccess (updateCycle env s) = 1 := by
  unfold updateCycle
  rw [h]
  exact ⟨rfl, rfl, rfl⟩

/-- Witness for C1 at the concrete unavailability environment. -/
theorem update_unavailable_clean_cycle_witness :
    envC1.pidsResult = PidsResult.unavailable "nvml device count: gpu process list unavailable (ERROR_NOT_SUPPORTED)" ∧
    ((updateCycle envC1 ⟨[], ⟨0, false⟩⟩).metrics = [] ∧
     (updateCycle envC1 ⟨[], ⟨0, false⟩⟩).err = none ∧
     processCollectorSuccess (updateCycle envC1 ⟨[], ⟨0, false⟩⟩) = 1) :=
  ⟨rfl, update_unavailable_clean_cycle envC1 _ _ rfl⟩

/-! Helper lemmas for the orchestrator's meta-metrics. -/

theorem filter_payload_eq_nil (p : ChanMetric → Bool)
    (hp : ∀ d v ls, p (ChanMetric.payload d v ls) = false)
    (l : List (String × ℚ × List String)) :
    (l.map (fun m => ChanMetric.payload m.1 m.2.1 m.2.2)).filter p = [] := by
  induction l with
  | nil => rfl
  | cons a rest ih => simp [List.filter_cons, hp, ih]

theorem execute_filter_duration_self (c : CollectorRun) :
    (execute c).filter (isDurationFor c.name)
      = [ChanMetric.scrapeDuration c.name c.durationSeconds] := by
  unfold execute
  rw [List.filter_append, filter_payload_eq_nil _ (fun _ _ _ => rfl) _]
  simp [isDurationFor]

theorem execute_filter_duration_ne (c : CollectorRun) (name : String) (h : c.name ≠ name) :
    (execute c).filter (isDurationFor name) = [] := by
  unfold execute
  rw [List.filter_append, filter_payload_eq_nil _ (fun _ _ _ => rfl) _]
  simp [isDurationFor, h]

theorem execute_filter_success_self (c : CollectorRun) :
    (execute c).filter (isSuccessFor c.name)
      = [ChanMetric.scrapeSuccess c.name (executeSuccess c.updateErr)] := by
  unfold execute
  rw [List.filter_append, filter_payload_eq_nil _ (fun _ _ _ => rfl) _]
  simp [isSuccessFor]

theorem execute_filter_success_ne (c : CollectorRun) (name : String) (h : c.name ≠ name) :
    (execute c).filter (isSuccessFor name) = [] := by
  unfold execute
  rw [List.filter_append, filter_payload_eq_nil _ (fun _ _ _ => rfl) _]
  simp [isSuccessFor, h]

theorem Collect_cons (d : CollectorRun) (rest : List CollectorRun) :
    Collect (d :: rest) = execute d ++ Collect rest := by
  simp [Collect]

theorem collect_filter_duration_nil (cs : List CollectorRun) (name : String)
    (h : ∀ e ∈ cs, e.name ≠ name) :
    (Collect cs).filter (isDurationFor name) = [] := by
  induction cs with
  | nil => rfl
  | cons d rest ih =>
    rw [Collect_cons, List.filter_append, execute_filter_duration_ne d name (h d (by simp)),
        ih (fun e he => h e (by simp [he]))]
    rfl

theorem collect_filter_success_nil (cs : List CollectorRun) (name : String)
    (h : ∀ e ∈ cs, e.name ≠ name) :
    (Collect cs).filter (isSuccessFor name) = [] := by
  induction cs with
  | nil => rfl
  | cons d rest ih =>
    rw [Collect_cons, List.filter_append, execute_filter_success_ne d name (h d (by simp)),
        ih (fun e he => h e (by simp [he]))]
    rfl

theorem name_ne_of_nodup (d : CollectorRun) (rest : List CollectorRun)
    (hnodup : ((d :: rest).map (fun x => x.name)).Nodup) :
    ∀ e ∈ rest, e.name ≠ d.name := by
  intro e he heq
  rw [List.map_cons, List.nodup_cons] at hnodup
  exact hnodup.1 (heq ▸ List.mem_map_of_mem (fun x => x.name) he)

theorem collect_execute_sublist (cs : List CollectorRun) (c : CollectorRun) (hmem : c ∈ cs) :
    (execute c).Sublist (Collect cs) := by
  induction cs with
  | nil => cases hmem
  | cons d rest ih =>
    rw [Collect_cons]
    rcases List.mem_cons.mp hmem with rfl | hmem'
    · exact List.sublist_append_left _ _
    · exact (ih hmem').trans (List.sublist_append_right _ _)

theorem collect_filter_duration (cs : List CollectorRun) (c : CollectorRun)
    (hmem : c ∈ cs) (hnodup : (cs.map (fun x => x.name)).Nodup) :
    (Collect cs).filter (isDurationFor c.name)
      = [ChanMetric.scrapeDuration c.name c.durationSeconds] := by
  induction cs with
  | nil => cases hmem
  | cons d rest ih =>
    rw [Collect_cons, List.filter_append]
    rcases List.mem_cons.mp hmem with rfl | hmem'
    · rw [execute_filter_duration_self,
          collect_filter_duration_nil rest c.name (name_ne_of_nodup c rest hnodup)]
      rfl
    · rw [execute_filter_duration_ne d c.name
            (fun heq => name_ne_of_nodup d rest hnodup c hmem' heq.symm),
          ih hmem' (by rw [List.map_cons, List.nodup_cons] at hnodup; exact hnodup.2)]
      rfl

theorem collect_filter_success (cs : List CollectorRun) (c : CollectorRun)
    (hmem : c ∈ cs) (hnodup : (cs.map (fun x => x.name)).Nodup) :
    (Collect cs).filter (isSuccessFor c.name)
      = [ChanMetric.scrapeSuccess c.name (executeSuccess c.updateErr)] := by
  induction cs with
  | nil => cases hmem
  | cons d rest ih =>
    rw [Collect_cons, List.filter_append]
    rcases List.mem_cons.mp hmem with rfl | hmem'
    · rw [execute_filter_success_self,
          collect_filter_success_nil rest c.name (name_ne_of_nodup c rest hnodup)]
      rfl
    · rw [execute_filter_success_ne d c.name
            (fun heq => name_ne_of_nodup d rest hnodup c hmem' heq.symm),
          ih hmem' (by rw [List.map_cons, List.nodup_cons] at hnodup; exact hnodup.2)]
      rfl

/-- C3: for every registered collector set with distinct names and every
outcome of each collector's `Update`, `Collect` emits exactly one duration
gauge and exactly one success gauge per collector (1 on success, 0 on any
error), and each collector's full emission — its own series and its
meta-gauges — appears in the scrape output whatever the other collectors
returned. -/
theorem collect_meta_metrics (cs : List CollectorRun) (c : CollectorRun)
    (hmem : c ∈ cs) (hnodup : (cs.map (fun x => x.name)).Nodup) :
    ((Collect cs).filter (isDurationFor c.name)).length = 1 ∧
    ((Collect cs).filter (isSuccessFor c.name)).length = 1 ∧
    ChanMetric.scrapeSuccess c.name (executeSuccess c.updateErr) ∈ Collect cs ∧
    (execute c).Sublist (Collect cs) := by
  refine ⟨?_, ?_, ?_, collect_execute_sublist cs c hmem⟩
  · rw [collect_filter_duration cs c hmem hnodup]; rfl
  · rw [collect_filter_success cs c hmem hnodup]; rfl
  · exact (collect_execute_sublist cs c hmem).subset (by simp [execute])

/-- Concrete collector set for the C3 witness: a succeeding collector and
a failing one. -/
def collectorsC3 : List CollectorRun :=
  [⟨"gpu_metrics", [("gpu_metrics_used_memory", 512, ["node-0"])], none, 1⟩,
   ⟨"gpu_process", [], some (GoError.other "init dcgm: failed"), 2⟩]

/-- The failing collector of the C3 witness set. -/
def collectorC3 : CollectorRun :=
  ⟨"gpu_process", [], some (GoError.other "init dcgm: failed"), 2⟩

/-- Witness for C3: the failing collector still gets exactly one duration
gauge and one success gauge (value 0) in the scrape output. -/
theorem collect_meta_metrics_witness :
    (collectorC3 ∈ collectorsC3 ∧ (collectorsC3.map (fun x => x.name)).Nodup) ∧
    (((Collect collectorsC3).filter (isDurationFor collectorC3.name)).length = 1 ∧
     ((Collect collectorsC3).filter (isSuccessFor collectorC3.name)).length = 1 ∧
     ChanMetric.scrapeSuccess collectorC3.name (executeSuccess collectorC3.updateErr)
        ∈ Collect collectorsC3 ∧
     (execute collectorC3).Sublist (Collect collectorsC3)) :=
  ⟨⟨by decide, by decide⟩,
   collect_meta_metrics collectorsC3 collectorC3 (by decide) (by decide)⟩

/-! Helper lemmas for the process collector's per-cycle loop. -/

theorem processCPUPercent_fst_no_delta (s : gpuProcessCollectorState) (pid : Nat)
    (procSeconds systemDelta : ℚ) (numCPU : Nat) :
    (processCPUPercent s pid procSeconds systemDelta false numCPU).1 = 0 := by
  unfold processCPUPercent
  cases mapLookup s.cpuSamples pid <;> simp

theorem emitForInfo_cpu_value (hn : String) (meta : processMetadata) (cpu mem : ℚ)
    (info : DcgmProcessInfo) (m : ProcMetric) (hm : m ∈ emitForInfo hn meta cpu mem info)
    (hk : m.kind = ProcMetricKind.processCPU) : m.value = cpu := by
  simp [emitForInfo] at hm
  rcases hm with h | h | h <;> subst h <;> simp_all

theorem processOnePid_cpu_zero (env : ProcCycleEnv) (sd : ℚ)
    (acc : gpuProcessCollectorState × List ProcMetric) (pid : Nat)
    (hacc : ∀ m ∈ acc.2, m.kind = ProcMetricKind.processCPU → m.value = 0) :
    ∀ m ∈ (processOnePid env sd false acc pid).2,
      m.kind = ProcMetricKind.processCPU → m.value = 0 := by
  intro m hm hk
  unfold processOnePid at hm
  cases hpi : env.procInfos pid with
  | error e => rw [hpi] at hm; exact hacc m hm hk
  | ok infos =>
    rw [hpi] at hm
    cases infos with
    | nil => simp only at hm; exact hacc m hm hk
    | cons info0 rest =>
      simp only at hm
      cases hhi : env.hostProcInfo pid info0.procName with
      | error e => rw [hhi] at hm; simp only at hm; exact hacc m hm hk
      | ok r =>
        rw [hhi] at hm
        obtain ⟨meta, memPercent, procCPUSeconds⟩ := r
        simp only at hm
        rcases List.mem_append.mp hm with h | h
        · exact hacc m h hk
        · rcases List.mem_flatten.mp h with ⟨l, hl, hml⟩
          rcases List.mem_map.mp hl with ⟨info, hinfo, rfl⟩
          have hv := emitForInfo_cpu_value _ _ _ _ _ _ hml hk
          rw [hv, processCPUPercent_fst_no_delta]
          simp

theorem fold_cpu_zero (env : ProcCycleEnv) (sd : ℚ) (l : List Nat) :
    ∀ (acc : gpuProcessCollectorState × List ProcMetric),
      (∀ m ∈ acc.2, m.kind = ProcMetricKind.processCPU → m.value = 0) →
      ∀ m ∈ (l.foldl (processOnePid env sd false) acc).2,
        m.kind = ProcMetricKind.processCPU → m.value = 0 := by
  induction l with
  | nil => intro acc hacc; exact hacc
  | cons q rest ih =>
    intro acc hacc
    exact ih _ (processOnePid_cpu_zero env sd acc q hacc)

theorem updateCycle_cpu_zero_of_uninit (env : ProcCycleEnv) (s : gpuProcessCollectorState)
    (hs : s.systemSample.inited = false) :
    ∀ m ∈ (updateCycle env s).metrics, m.kind = ProcMetricKind.processCPU → m.value = 0 := by
  intro m hm hk
  unfold updateCycle at hm
  cases hpr : env.pidsResult with
  | unavailable msg => rw [hpr] at hm; simp only at hm; simp at hm
  | failure msg => rw [hpr] at hm; simp only at hm; simp at hm
  | ok pids =>
    rw [hpr] at hm; simp only at hm
    by_cases he : pids.isEmpty
    · rw [if_pos he] at hm; simp at hm
    · rw [if_neg he] at hm
      cases htc : env.totalCPUSeconds with
      | error msg => rw [htc] at hm; simp only at hm; simp at hm
      | ok total =>
        rw [htc] at hm; simp only at hm
        have hsys : updateSystemSample s.systemSample total = (0, false, ⟨total, true⟩) := by
          unfold updateSystemSample
          rw [hs]
          simp
        rw [hsys] at hm
        cases hdi : env.dcgmInitResult with
        | error msg => rw [hdi] at hm; simp only at hm; simp at hm
        | ok u =>
          rw [hdi] at hm; simp only at hm
          cases hwp : env.watchPidFieldsResult with
          | error msg => rw [hwp] at hm; simp only at hm; simp at hm
          | ok u2 =>
            rw [hwp] at hm; simp only at hm
            exact fold_cpu_zero env 0 pids _ (by simp) m hm hk

theorem processOnePid_lookup_isSome_mono (env : ProcCycleEnv) (sd : ℚ) (hsd : Bool)
    (acc : gpuProcessCollectorState × List ProcMetric) (pid q : Nat)
    (h : (mapLookup acc.1.cpuSamples q).isSome) :
    (mapLookup (processOnePid env sd hsd acc pid).1.cpuSamples q).isSome := by
  unfold processOnePid
  cases hpi : env.procInfos pid with
  | error e => simp only; exact h
  | ok infos =>
    cases infos with
    | nil => simp only; exact h
    | cons info0 rest =>
      simp only
      cases hhi : env.hostProcInfo pid info0.procName with
      | error e => simp only; exact h
      | ok r =>
        obtain ⟨meta, memPercent, procCPUSeconds⟩ := r
        simp only
        rw [processCPUPercent_snd]
        exact mapLookup_insert_isSome _ _ _ _ h

theorem fold_lookup_isSome (env : ProcCycleEnv) (sd : ℚ) (hsd : Bool) (p : Nat) :
    ∀ (l : List Nat) (acc : gpuProcessCollectorState × List ProcMetric),
      ((p ∈ l ∧ (envCpuSeconds env p).isSome) ∨ (mapLookup acc.1.cpuSamples p).isSome) →
      (mapLookup (l.foldl (processOnePid env sd hsd) acc).1.cpuSamples p).isSome := by
  intro l
  induction l with
  | nil =>
    intro acc hacc
    rcases hacc with ⟨hmem, _⟩ | hsome
    · cases hmem
    · exact hsome
  | cons q rest ih =>
    intro acc hacc
    rw [List.foldl_cons]
    rcases hacc with ⟨hmem, hcs⟩ | hsome
    · rcases List.mem_cons.mp hmem with heq | hmem'
      · subst heq
        apply ih
        right
        unfold envCpuSeconds at hcs
        unfold processOnePid
        cases hpi : env.procInfos p with
        | error e => rw [hpi] at hcs; simp [envCpuSeconds] at hcs
        | ok infos =>
          rw [hpi] at hcs
          cases infos with
          | nil => simp only; simp at hcs
          | cons info0 rest2 =>
            simp only
            simp only at hcs
            cases hhi : env.hostProcInfo p info0.procName with
            | error e => rw [hhi] at hcs; simp at hcs
            | ok r =>
              obtain ⟨meta, memPercent, procCPUSeconds⟩ := r
              simp only
              rw [processCPUPercent_snd]
              simp only
              rw [mapLookup_insert_self]
              rfl
      · exact ih _ (Or.inl ⟨hmem', hcs⟩)
    · exact ih _ (Or.inr (processOnePid_lookup_isSome_mono env sd hsd acc q p hsome))

/-- Environment for the C5 witness: enumeration succeeds with no active
processes. -/
def envC5 : ProcCycleEnv where
  pidsResult := PidsResult.ok []
  totalCPUSeconds := Except.ok 150
  dcgmInitResult := Except.ok ()
  watchPidFieldsResult := Except.ok ()
  procInfos := fun _ => Except.ok []
  hostProcInfo := fun _ _ => Except.error "unused"
  numCPU := 8
  hostname := "node-0"

/-- Environment for the C5 witness's following cycle: pid 7 reappears with
all lookups succeeding. -/
def envC5b : ProcCycleEnv where
  pidsResult := PidsResult.ok [7]
  totalCPUSeconds := Except.ok 200
  dcgmInitResult := Except.ok ()
  watchPidFieldsResult := Except.ok ()
  procInfos := fun p => if p == 7 then Except.ok [⟨"python", 0, 7, 4096⟩] else Except.error "no data"
  hostProcInfo := fun p _ =>
    if p == 7 then Except.ok (⟨"python", "1000", "python train.py"⟩, 12, 3)
    else Except.error "process not found"
  numCPU := 8
  hostname := "node-0"

/-- C5: a successful enumeration reporting zero active processes makes
`Update` clear all cross-cycle state (empty sample map, system sample back
to uninitialized) and return nil with no series; consequently, in any cycle
run from that reset state every emitted per-process CPU series has value 0
(no extrapolation across the gap). -/
theorem update_no_processes_resets_state (env env2 : ProcCycleEnv)
    (s : gpuProcessCollectorState) (h : env.pidsResult = PidsResult.ok []) :
    updateCycle env s = ⟨⟨[], ⟨0, false⟩⟩, [], none⟩ ∧
    (∀ m ∈ (updateCycle env2 (updateCycle env s).state).metrics,
      m.kind = ProcMetricKind.processCPU → m.value = 0) := by
  have h1 : updateCycle env s = ⟨⟨[], ⟨0, false⟩⟩, [], none⟩ := by
    unfold updateCycle
    rw [h]
    simp [resetCPUSamples]
  refine ⟨h1, ?_⟩
  rw [h1]
  exact updateCycle_cpu_zero_of_uninit env2 _ rfl

/-- Witness for C5: a prior baseline for pid 7 and an armed system sample
are wiped by an empty cycle, and pid 7's reappearance next cycle reports
CPU series value 0. -/
theorem update_no_processes_resets_state_witness :
    envC5.pidsResult = PidsResult.ok [] ∧
    (updateCycle envC5 ⟨[(7, 4)], ⟨50, true⟩⟩ = ⟨⟨[], ⟨0, false⟩⟩, [], none⟩ ∧
     ∀ m ∈ (updateCycle envC5b (updateCycle envC5 ⟨[(7, 4)], ⟨50, true⟩⟩).state).metrics,
       m.kind = ProcMetricKind.processCPU → m.value = 0) :=
  ⟨rfl, update_no_processes_resets_state envC5 envC5b ⟨[(7, 4)], ⟨50, true⟩⟩ rfl⟩

/-- Environment for the C4 counterexample: pid 5 is active but its
process-info lookup fails, so `Update` skips it. -/
def envC4 : ProcCycleEnv where
  pidsResult := PidsResult.ok [5]
  totalCPUSeconds := Except.ok 100
  dcgmInitResult := Except.ok ()
  watchPidFieldsResult := Except.ok ()
  procInfos := fun _ => Except.error "no data is available"
  hostProcInfo := fun _ _ => Except.error "unused"
  numCPU := 4
  hostname := "node-0"

/-- C4 counterexample: a cycle that completes (returns nil) with pid 5 in
the active set but whose per-pid lookup failed leaves no stored sample for
pid 5 — the sample-map keys are not exactly the active set. -/
theorem active_pid_without_sample :
    envC4.pidsResult = PidsResult.ok [5] ∧
    (updateCycle envC4 ⟨[], ⟨0, false⟩⟩).err = none ∧
    mapLookup (updateCycle envC4 ⟨[], ⟨0, false⟩⟩).state.cpuSamples 5 = none := by decide

/-- C4 amended: after every completed cycle whose enumeration returned
`pids`, the sample-map keys are a subset of `pids` (no stale pid remains),
and every pid of `pids` whose process-info and host lookups succeeded has a
stored sample. -/
theorem cpuSamples_subset_active (env : ProcCycleEnv) (s : gpuProcessCollectorState)
    (pids : List Nat) (h : env.pidsResult = PidsResult.ok pids)
    (hok : (updateCycle env s).err = none) :
    (∀ p, (mapLookup (updateCycle env s).state.cpuSamples p).isSome → p ∈ pids) ∧
    (∀ p ∈ pids, (envCpuSeconds env p).isSome →
      (mapLookup (updateCycle env s).state.cpuSamples p).isSome) := by
  unfold updateCycle at hok ⊢
  rw [h] at hok ⊢
  simp only at hok ⊢
  by_cases he : pids.isEmpty
  · rw [if_pos he] at hok ⊢
    constructor
    · intro p hp
      simp [resetCPUSamples, mapLookup] at hp
    · intro p hp
      rw [List.isEmpty_iff.mp he] at hp
      cases hp
  · rw [if_neg he] at hok ⊢
    cases htc : env.totalCPUSeconds with
    | error msg => rw [htc] at hok; simp only at hok; simp at hok
    | ok total =>
      rw [htc] at hok
      simp only at hok ⊢
      cases hdi : env.dcgmInitResult with
      | error msg => rw [hdi] at hok; simp only at hok; simp at hok
      | ok u =>
        rw [hdi] at hok
        simp only at hok ⊢
        cases hwp : env.watchPidFieldsResult with
        | error msg => rw [hwp] at hok; simp only at hok; simp at hok
        | ok u2 =>
          simp only
          constructor
          · intro p hp
            exact mapLookup_prune_isSome _ pids p hp
          · intro p hp hcs
            rw [mapLookup_prune_mem _ pids p hp]
            exact fold_lookup_isSome env _ _ p pids _ (Or.inl ⟨hp, hcs⟩)

/-- Environment for the C4 witness: pid 7 is active and all its lookups
succeed. -/
def envC4w : ProcCycleEnv where
  pidsResult := PidsResult.ok [7]
  totalCPUSeconds := Except.ok 100
  dcgmInitResult := Except.ok ()
  watchPidFieldsResult := Except.ok ()
  procInfos := fun p => if p == 7 then Except.ok [⟨"python", 0, 7, 4096⟩] else Except.error "no data"
  hostProcInfo := fun p _ =>
    if p == 7 then Except.ok (⟨"python", "1000", "python train.py"⟩, 12, 3)
    else Except.error "process not found"
  numCPU := 8
  hostname := "node-0"

/-- Witness for C4 on a completed cycle with pid 7 fully processed. -/
theorem cpuSamples_subset_active_witness :
    (envC4w.pidsResult = PidsResult.ok [7] ∧
     (updateCycle envC4w ⟨[], ⟨0, false⟩⟩).err = none) ∧
    ((∀ p, (mapLookup (updateCycle envC4w ⟨[], ⟨0, false⟩⟩).state.cpuSamples p).isSome → p ∈ [7]) ∧
     (∀ p ∈ [7], (envCpuSeconds envC4w p).isSome →
       (mapLookup (updateCycle envC4w ⟨[], ⟨0, false⟩⟩).state.cpuSamples p).isSome)) :=
  ⟨⟨rfl, by decide⟩, cpuSamples_subset_active envC4w ⟨[], ⟨0, false⟩⟩ [7] rfl (by decide)⟩
